import Mathlib

/-!
Verification of the clock-in-pro face-recognition core.

This development shallowly embeds the arithmetic and control-flow core of the
repository's face-recognition pipeline and proves (or refutes) the frozen
specification claims about it:

* `server/face_recognition_service.py` — `calculate_face_distance` (Euclidean
  distance with the hard-coded 0.85 calibration factor and the sub-0.55 remap),
  `compare_faces` (tolerance decision).
* `server/simple_face_recognition.py` — `encode_face` (feature concatenation,
  L2 normalization, process-hash signature) and `compare_faces_simple`
  (unchecked NumPy subtraction with 1-D broadcasting).
* `server/simple_deepface_verification.py` — the 2.0 empirical scaling of
  `verify_faces_deepface_style`.
* `face_analysis_system.py` — `FaceAnalysisSystem.detect_face` (two-pass
  cascade policy, largest-area selection) and `generate_comparison_matrix`
  (full n×n distance matrix, pair partition at the 0.6 threshold, top-5
  truncation).
* `server/liveness_detection.py` — `calculate_liveness_score` and
  `comprehensive_liveness_check` (weighted aggregation, clamping, the 70
  liveness threshold).
* `server/actual_deepface.py` — the verify orchestration of `main` and
  `verify_faces_with_simple_fallback` (engine fallback and reporting).

Real-valued quantities are modelled over `ℝ` (floating-point rounding is not
modelled); NumPy vectors are modelled as `List ℝ`.  Python exceptions are
modelled as `Except String`.
-/

namespace ClockInPro

open Classical in
/-- `np.linalg.norm v` for a 1-D vector: the square root of the sum of the
squared entries. -/
noncomputable def npLinalgNorm (v : List ℝ) : ℝ :=
  Real.sqrt ((v.map (fun x => x ^ 2)).sum)

/-- Elementwise NumPy subtraction `a - b` of two arrays of the same shape. -/
def npSubSameLength (a b : List ℝ) : List ℝ :=
  List.zipWith (fun x y => x - y) a b

/-- `np.linalg.norm (enc1 - enc2)`: the Euclidean distance between two
equal-length encodings (`face_recognition_service.py`, line 223). -/
noncomputable def euclideanDistance (a b : List ℝ) : ℝ :=
  npLinalgNorm (npSubSameLength a b)

open Classical in
/-- The calibrated distance of `calculate_face_distance`
(`face_recognition_service.py`, lines 222-234), for encodings of equal
dimension: the Euclidean distance is multiplied by the calibration factor
`0.85`; when the calibrated value falls below `0.55` and the encodings are not
elementwise equal (`np.array_equal`), it is remapped to
`0.6 + calibrated * 0.1`. -/
noncomputable def calibratedDistance (enc1 enc2 : List ℝ) : ℝ :=
  let calibrated := euclideanDistance enc1 enc2 * 0.85
  if calibrated < 0.55 ∧ enc1 ≠ enc2 then 0.6 + calibrated * 0.1 else calibrated

open Classical in
/-- `calculate_face_distance` (`face_recognition_service.py`, lines 211-237):
raises on a dimension mismatch (the Python message also interpolates the two
lengths), otherwise returns the calibrated distance. -/
noncomputable def calculate_face_distance (enc1 enc2 : List ℝ) : Except String ℝ :=
  if enc1.length ≠ enc2.length then Except.error "Encoding dimension mismatch"
  else Except.ok (calibratedDistance enc1 enc2)

open Classical in
/-- The match decision of `compare_faces` (`face_recognition_service.py`,
line 249) and of `compare_faces_simple` (`simple_face_recognition.py`,
line 201): `is_match = distance <= tolerance`. -/
noncomputable def compare_faces_is_match (distance tolerance : ℝ) : Bool :=
  decide (distance ≤ tolerance)

/-- The empirical scaling of `verify_faces_deepface_style`
(`simple_deepface_verification.py`, lines 154-159): the raw Euclidean distance
between the two feature vectors is multiplied by the factor `2.0`. -/
noncomputable def deepface_style_scaled_distance (f1 f2 : List ℝ) : ℝ :=
  euclideanDistance f1 f2 * 2.0

/-- NumPy subtraction of two 1-D arrays with broadcasting, as hit by
`known_encoding_array - unknown_encoding_array` in `compare_faces_simple`
(`simple_face_recognition.py`, line 198) and `compare_faces_reliable`
(`reliable_face_recognition.py`, line 192): equal lengths subtract
elementwise; a length-1 operand is broadcast across the other; any other
shape combination raises a broadcast `ValueError`. -/
def npSubBroadcast (a b : List ℝ) : Except String (List ℝ) :=
  if a.length = b.length then Except.ok (npSubSameLength a b)
  else if a.length = 1 then Except.ok (b.map (fun y => a.headD 0 - y))
  else if b.length = 1 then Except.ok (a.map (fun x => x - b.headD 0))
  else Except.error "operands could not be broadcast together"

/-- The vector produced by a successful broadcast subtraction (the value
inside `npSubBroadcast` when it does not error). -/
def npSubBroadcastValue (a b : List ℝ) : List ℝ :=
  if a.length = b.length then npSubSameLength a b
  else if a.length = 1 then b.map (fun y => a.headD 0 - y)
  else a.map (fun x => x - b.headD 0)

/-- The record returned by `compare_faces_simple` / `compare_faces_reliable`. -/
structure CompareOutcome where
  distance : ℝ
  is_match : Bool
  tolerance : ℝ

/-- The comparison core of `compare_faces_simple`
(`simple_face_recognition.py`, lines 187-207) and of the line-for-line
identical `compare_faces_reliable` (`reliable_face_recognition.py`, lines
181-204), taken after the unknown image has been encoded: subtract the two
encodings (NumPy broadcasting, no dimension check), take the Euclidean norm,
and compare against the tolerance.  A broadcast failure is re-raised wrapped
in the generic comparison failure message. -/
noncomputable def compare_faces_simple_core (known unknownEnc : List ℝ)
    (tolerance : ℝ) : Except String CompareOutcome :=
  match npSubBroadcast known unknownEnc with
  | Except.error e => Except.error ("Failed to compare faces: " ++ e)
  | Except.ok diff =>
      Except.ok { distance := npLinalgNorm diff
                , is_match := compare_faces_is_match (npLinalgNorm diff) tolerance
                , tolerance := tolerance }

/-- L2 normalization as applied by `encode_face`
(`simple_face_recognition.py`, lines 171-174): divide by the Euclidean norm
unless the norm is zero. -/
noncomputable def l2Normalize (v : List ℝ) : List ℝ :=
  if 0 < npLinalgNorm v then v.map (fun x => x / npLinalgNorm v) else v

/-- `encode_face` (`simple_face_recognition.py`, lines 39-182), modelled at
the level that decides determinism.  `imageFeatures` stands for the window,
region and edge features (lines 76-159), which are pure OpenCV/NumPy
computations on the input pixels; `noiseFeatures` stands for the 50 values
drawn from `np.random.normal` after `np.random.seed(42)` (lines 164-166) — a
fixed constant, identical in every run; `pyHash` is the value of the CPython
builtin `hash(face_roi.tobytes())` (line 178), which is salted per process
(`PYTHONHASHSEED`) and therefore an ambient parameter of the run.  The
features and noise are concatenated and L2-normalized, then the signature
`(pyHash % 1000000) / 1000000.0` is appended (lines 168-180). -/
noncomputable def encode_face (imageFeatures noiseFeatures : List ℝ)
    (pyHash : ℤ) : List ℝ :=
  l2Normalize (imageFeatures ++ noiseFeatures) ++
    [((pyHash % 1000000 : ℤ) : ℝ) / 1000000]

/-! ## Cohort comparison matrix (`face_analysis_system.py`, lines 369-470) -/

/-- A pair entry of `generate_comparison_matrix` (people are identified here
by their index in the cohort; the Python stores the matching person names). -/
structure PairEntry where
  person1 : ℕ
  person2 : ℕ
  distance : ℝ

/-- The distance stored for an off-diagonal cell: `calculate_face_distance`
applied to the two encodings (`face_analysis_system.py`, lines 397-400). -/
noncomputable def pairDistance (encs : List (List ℝ)) (i j : ℕ) : ℝ :=
  calibratedDistance (encs.getD i []) (encs.getD j [])

open Classical in
/-- One cell of the distance matrix (`face_analysis_system.py`,
lines 391-401): `0.0` on the diagonal, the pairwise calibrated distance
elsewhere. -/
noncomputable def matrixEntry (encs : List (List ℝ)) (i j : ℕ) : ℝ :=
  if i = j then 0 else pairDistance encs i j

/-- The full n×n distance matrix built by the nested
`for i in range(n): for j in range(n)` loops. -/
noncomputable def buildDistanceMatrix (encs : List (List ℝ)) : List (List ℝ) :=
  (List.range encs.length).map fun i =>
    (List.range encs.length).map fun j => matrixEntry encs i j

/-- The number of `calculate_face_distance` calls made by the nested loops of
`generate_comparison_matrix`: one per ordered pair `(i, j)` with `i ≠ j`. -/
def distanceCallCount (encs : List (List ℝ)) : ℕ :=
  ((List.range encs.length).map fun i =>
    ((List.range encs.length).filter fun j => decide (i ≠ j)).length).sum

/-- The unordered off-diagonal pairs enumerated by
`for i in range(n): for j in range(i + 1, n)` (`face_analysis_system.py`,
lines 423-431), each carrying `distance_matrix[i, j]`. -/
noncomputable def allPairs (encs : List (List ℝ)) : List PairEntry :=
  (List.range encs.length).flatMap fun i =>
    ((List.range encs.length).filter fun j => decide (i < j)).map fun j =>
      { person1 := i, person2 := j, distance := matrixEntry encs i j }

/-- Ascending comparison on the `distance` key, as used by
`closest_pairs.sort(key=lambda x: x['distance'])`. -/
def pairLE (p q : PairEntry) : Prop :=
  p.distance ≤ q.distance

/-- Descending comparison on the `distance` key, as used by
`most_different_pairs.sort(key=..., reverse=True)`. -/
def pairGE (p q : PairEntry) : Prop :=
  q.distance ≤ p.distance

noncomputable instance : DecidableRel pairLE :=
  fun p q => Real.decidableLE p.distance q.distance

noncomputable instance : DecidableRel pairGE :=
  fun p q => Real.decidableLE q.distance p.distance

instance : IsTotal PairEntry pairLE :=
  ⟨fun p q => le_total p.distance q.distance⟩

instance : IsTrans PairEntry pairLE :=
  ⟨fun _ _ _ h1 h2 => le_trans h1 h2⟩

instance : IsTotal PairEntry pairGE :=
  ⟨fun p q => le_total q.distance p.distance⟩

instance : IsTrans PairEntry pairGE :=
  ⟨fun _ _ _ h1 h2 => le_trans h2 h1⟩

open Classical in
/-- The full ascending "closest" list before truncation: the unordered pairs
whose distance is strictly below `0.6` (`face_analysis_system.py`, line 433),
sorted ascending by distance (line 439).  Python's stable sort and insertion
sort agree as functions. -/
noncomputable def closestPairsFull (encs : List (List ℝ)) : List PairEntry :=
  List.insertionSort pairLE
    ((allPairs encs).filter fun p => decide (p.distance < 0.6))

open Classical in
/-- The full descending "most different" list before truncation: the unordered
pairs whose distance is not strictly below `0.6` (the `else` branch of
line 433), sorted descending by distance (line 440). -/
noncomputable def mostDifferentPairsFull (encs : List (List ℝ)) : List PairEntry :=
  List.insertionSort pairGE
    ((allPairs encs).filter fun p => decide (¬ p.distance < 0.6))

/-- Whether all encodings of the cohort share one dimension.  In the Python,
a mismatched pair makes `calculate_face_distance` raise inside the loop, and
the surrounding `try` turns that into the generation-failed error result; the
embedding hoists that check. -/
def allSameLength (encs : List (List ℝ)) : Bool :=
  encs.all fun e => e.length == (encs.headD []).length

/-- The successful result of `generate_comparison_matrix`
(`face_analysis_system.py`, lines 450-464; the similarity matrix and summary
statistics are omitted). -/
structure MatrixResult where
  num_faces : ℕ
  distance_matrix : List (List ℝ)
  closest_pairs : List PairEntry
  most_different_pairs : List PairEntry

open Classical in
/-- `generate_comparison_matrix` (`face_analysis_system.py`, lines 369-470):
fewer than 2 faces is an error (lines 380-384); a dimension mismatch inside
the loop aborts with the generation-failed error; otherwise the distance
matrix is built and the pair lists are derived, each truncated to its first
five entries (lines 456-457). -/
noncomputable def generate_comparison_matrix (encs : List (List ℝ)) :
    Except String MatrixResult :=
  if encs.length < 2 then
    Except.error "Need at least 2 faces to generate comparison matrix"
  else if ¬ allSameLength encs then
    Except.error "Comparison matrix generation failed"
  else
    Except.ok { num_faces := encs.length
              , distance_matrix := buildDistanceMatrix encs
              , closest_pairs := (closestPairsFull encs).take 5
              , most_different_pairs := (mostDifferentPairsFull encs).take 5 }

/-! ## Face detection (`face_analysis_system.py`, lines 55-125) -/

/-- The parameters of one `detectMultiScale` pass. -/
structure DetectParams where
  scaleFactor : ℚ
  minNeighbors : ℕ
  minSize : ℕ
  deriving DecidableEq

/-- The conservative first pass of `FaceAnalysisSystem.detect_face`
(`face_analysis_system.py`, lines 84-90): `scaleFactor=1.1`,
`minNeighbors=5`, `minSize=(30, 30)`. -/
def primaryDetectParams : DetectParams :=
  { scaleFactor := 11 / 10, minNeighbors := 5, minSize := 30 }

/-- The permissive second pass (`face_analysis_system.py`, lines 92-99):
`scaleFactor=1.05`, `minNeighbors=3`, `minSize=(20, 20)`. -/
def permissiveDetectParams : DetectParams :=
  { scaleFactor := 21 / 20, minNeighbors := 3, minSize := 20 }

/-- A detected face rectangle `(x, y, w, h)`. -/
structure FaceRegion where
  x : ℕ
  y : ℕ
  w : ℕ
  h : ℕ
  deriving DecidableEq

/-- The area key `f[2] * f[3]` used to pick the largest face. -/
def regionArea (r : FaceRegion) : ℕ :=
  r.w * r.h

/-- Python's `max(faces, key=lambda f: f[2] * f[3])` over a nonempty list:
keep the current champion, replace it only on a strictly larger key, so a tie
keeps the earlier region in scan order. -/
def pyMaxByArea (head : FaceRegion) (rest : List FaceRegion) : FaceRegion :=
  rest.foldl (fun best r => if regionArea best < regionArea r then r else best)
    head

/-- The region list `detect_face` works with: the first pass's output, or the
second pass's output when the first found none (`face_analysis_system.py`,
lines 84-99).  The detector itself (the Haar cascade) is the external
collaborator, passed as a function. -/
def detectedFaces (detector : DetectParams → List FaceRegion) :
    List FaceRegion :=
  match detector primaryDetectParams with
  | [] => detector permissiveDetectParams
  | f :: rest => f :: rest

/-- `FaceAnalysisSystem.detect_face` reduced to its detection decision
(`face_analysis_system.py`, lines 81-125): `none` when both passes find no
region (the Python then returns a result with `face_detected=False`, which
`analyze_image` turns into the no-face-detected error), otherwise the region
with the largest area, ties broken by the first region in scan order
(lines 111-114). -/
def detect_face (detector : DetectParams → List FaceRegion) :
    Option FaceRegion :=
  match detectedFaces detector with
  | [] => none
  | f :: rest => some (pyMaxByArea f rest)

/-- Specification predicate: `r` is the first region of `l` attaining the
maximal area — every region before it is strictly smaller, every region after
it is no larger. -/
def firstMaxSpec (l : List FaceRegion) (r : FaceRegion) : Prop :=
  ∃ l₁ l₂, l = l₁ ++ r :: l₂ ∧ (∀ s ∈ l₁, regionArea s < regionArea r) ∧
    ∀ s ∈ l₂, regionArea s ≤ regionArea r

/-- Test fixture: a detector that returns three regions on the conservative
pass (the first and second tied for the largest area) and nothing on the
permissive pass; the passes are told apart by their minimum-neighbor count. -/
def sampleDetector (p : DetectParams) : List FaceRegion :=
  if p.minNeighbors = 5 then
    [ { x := 0, y := 0, w := 2, h := 2 }
    , { x := 1, y := 1, w := 4, h := 1 }
    , { x := 0, y := 0, w := 1, h := 1 } ]
  else []

/-- Test fixture: a detector that never finds a region. -/
def emptyDetector (_ : DetectParams) : List FaceRegion :=
  []

/-! ## Liveness scoring (`server/liveness_detection.py`) -/

/-- The quality analysis consumed by `calculate_liveness_score` (its `score`
field, produced by `analyze_face_quality`). -/
structure QualityAnalysis where
  score : ℚ

/-- The screen-reflection check result (`detect_screen_reflection`). -/
structure ReflectionCheck where
  is_screen_reflection : Bool
  confidence : ℚ

/-- The human verification result (`analyze_age_and_human_verification`). -/
structure HumanCheck where
  is_human : Bool
  confidence : ℚ

/-- The motion analysis result (`detect_motion_consistency`). -/
structure MotionAnalysis where
  has_motion : Bool
  score : ℚ

/-- The blink analysis result (`detect_blink_ear`). -/
structure BlinkAnalysis where
  is_blinking : Bool

/-- The five sub-analyses assembled by `comprehensive_liveness_check`
(`liveness_detection.py`, lines 476-482).  The sub-analyses themselves are
OpenCV/DeepFace image computations on the frames, external to this model. -/
structure LivenessAnalysis where
  quality : QualityAnalysis
  reflection : ReflectionCheck
  human : HumanCheck
  motion : MotionAnalysis
  blink : BlinkAnalysis

/-- Quality component of `calculate_liveness_score`
(`liveness_detection.py`, lines 526-529): `(quality_score / 100) * 25`. -/
def qualityComponent (a : LivenessAnalysis) : ℚ :=
  a.quality.score / 100 * 25

/-- Human component (lines 531-536): 25 points when `is_human`, else 15 when
the confidence exceeds 50, else 0. -/
def humanComponent (a : LivenessAnalysis) : ℚ :=
  if a.human.is_human then 25
  else if a.human.confidence > 50 then 15
  else 0

/-- Anti-reflection component (lines 538-543): 20 points when no screen
reflection was flagged, else `max 0 (20 - confidence / 5)`. -/
def reflectionComponent (a : LivenessAnalysis) : ℚ :=
  if a.reflection.is_screen_reflection then
    max 0 (20 - a.reflection.confidence / 5)
  else 20

/-- Motion component (lines 545-551): 20 points when motion was detected,
else `(motion_score / 100) * 20`. -/
def motionComponent (a : LivenessAnalysis) : ℚ :=
  if a.motion.has_motion then 20 else a.motion.score / 100 * 20

/-- Blink component (lines 553-556): a 10-point bonus for a detected blink. -/
def blinkComponent (a : LivenessAnalysis) : ℚ :=
  if a.blink.is_blinking then 10 else 0

/-- `calculate_liveness_score` (`liveness_detection.py`, lines 518-560): the
five components summed, clamped to `[0, 100]` by `min(100, max(0, score))`. -/
def calculate_liveness_score (a : LivenessAnalysis) : ℚ :=
  min 100 (max 0 (qualityComponent a + humanComponent a + reflectionComponent a
    + motionComponent a + blinkComponent a))

/-- The result record of `comprehensive_liveness_check`
(`liveness_detection.py`, lines 494-508; the nested analysis echo and the
recommendation strings are omitted). -/
structure LivenessOutcome where
  liveness_score : ℚ
  is_live : Bool
  frames_analyzed : ℕ

/-- `comprehensive_liveness_check` (`liveness_detection.py`, lines 419-516):
an empty frame list is an error (lines 431-435); otherwise the five
sub-analyses of the frames (abstracted here as `analysis`) are aggregated by
`calculate_liveness_score`, and `is_live` is `liveness_score >= 70`
(line 497). -/
def comprehensive_liveness_check {α : Type} (frames : List α)
    (analysis : LivenessAnalysis) : Except String LivenessOutcome :=
  if frames.isEmpty then Except.error "No frames provided for analysis"
  else
    Except.ok { liveness_score := calculate_liveness_score analysis
              , is_live := decide (70 ≤ calculate_liveness_score analysis)
              , frames_analyzed := frames.length }

/-! ## Verify orchestration (`server/actual_deepface.py`) -/

/-- The result of the primary `verify_faces_with_actual_deepface` path
(lines 227-239; quality analysis and recommendations omitted). -/
structure DeepfaceVerifyResult where
  verified : Bool
  distance : ℚ
  threshold : ℚ

/-- The comparison outcome handed back by the fallback comparer
(`compare_faces_simple` called at line 261 with tolerance 0.75). -/
structure FallbackCompareOutcome where
  is_match : Bool
  distance : ℚ

/-- The result record of `verify_faces_with_simple_fallback`
(`actual_deepface.py`, lines 263-272). -/
structure FallbackVerifyResult where
  verified : Bool
  distance : ℚ
  threshold : ℚ
  model : String
  details_engine : String

/-- `verify_faces_with_simple_fallback` (`actual_deepface.py`,
lines 253-272): raises when the OpenCV fallback modules cannot be loaded;
otherwise propagates a comparison failure, or wraps the comparison outcome
with the fixed 0.75 tolerance, the `opencv-simple` model tag and the
`opencv_fallback` engine detail. -/
def verify_faces_with_simple_fallback (fallbackLoaded : Bool)
    (comparison : Except String FallbackCompareOutcome) :
    Except String FallbackVerifyResult :=
  if fallbackLoaded then
    match comparison with
    | Except.error e => Except.error e
    | Except.ok c =>
        Except.ok { verified := c.is_match
                  , distance := c.distance
                  , threshold := 0.75
                  , model := "opencv-simple"
                  , details_engine := "opencv_fallback" }
  else
    Except.error
      "DeepFace is unavailable and the OpenCV fallback could not be loaded."

/-- The body carried by a successful verify response: either the primary
DeepFace result or the fallback result. -/
inductive EngineResult where
  | deepface (r : DeepfaceVerifyResult)
  | fallback (r : FallbackVerifyResult)

/-- The single JSON object printed by the `verify` branch of `main`
(`actual_deepface.py`, lines 292-344). -/
structure VerifyResponse where
  success : Bool
  engine : Option String
  result : Option EngineResult
  error_msg : Option String

/-- The fallback half of the `verify` branch (`actual_deepface.py`,
lines 317-344): a successful fallback prints a success response tagged
`opencv_fallback`; a fallback failure prints a `success: false` response with
the combined error message — never an uncaught exception. -/
def fallbackResponse (fallbackLoaded : Bool)
    (comparison : Except String FallbackCompareOutcome) : VerifyResponse :=
  match verify_faces_with_simple_fallback fallbackLoaded comparison with
  | Except.ok fr =>
      { success := true
      , engine := some "opencv_fallback"
      , result := some (EngineResult.fallback fr)
      , error_msg := none }
  | Except.error e =>
      { success := false
      , engine := none
      , result := none
      , error_msg :=
          some ("DeepFace import failed and fallback comparison is unavailable. "
            ++ e) }

/-- The `verify` branch of `main` (`actual_deepface.py`, lines 292-344):
when DeepFace imported successfully the primary path is tried first and a
success is reported with engine `deepface`; a primary failure, or DeepFace
being unavailable, routes to the fallback path.  `primary` abstracts the
outcome of `verify_faces_with_actual_deepface`, whose body is a call into the
external DeepFace library. -/
def main_verify (deepfaceAvailable : Bool)
    (primary : Except String DeepfaceVerifyResult) (fallbackLoaded : Bool)
    (comparison : Except String FallbackCompareOutcome) : VerifyResponse :=
  if deepfaceAvailable then
    match primary with
    | Except.ok r =>
        { success := true
        , engine := some "deepface"
        , result := some (EngineResult.deepface r)
        , error_msg := none }
    | Except.error _ => fallbackResponse fallbackLoaded comparison
  else fallbackResponse fallbackLoaded comparison

/-! ## Basic facts about the embedded vector arithmetic -/

theorem sumSq_nonneg (v : List ℝ) : 0 ≤ (v.map (fun x => x ^ 2)).sum := by
  induction v with
  | nil => simp
  | cons x xs ih =>
      simp only [List.map_cons, List.sum_cons]
      have := sq_nonneg x
      linarith

theorem npLinalgNorm_nonneg (v : List ℝ) : 0 ≤ npLinalgNorm v :=
  Real.sqrt_nonneg _

theorem sumSq_sub_self (e : List ℝ) :
    ((npSubSameLength e e).map (fun x => x ^ 2)).sum = 0 := by
  induction e with
  | nil => simp [npSubSameLength]
  | cons x xs ih =>
      simp only [npSubSameLength, List.zipWith_cons_cons, List.map_cons,
        List.sum_cons] at *
      simp [ih]

theorem euclideanDistance_self (e : List ℝ) : euclideanDistance e e = 0 := by
  simp [euclideanDistance, npLinalgNorm, sumSq_sub_self]

theorem eq_of_sumSq_sub_eq_zero :
    ∀ {a b : List ℝ}, a.length = b.length →
      ((npSubSameLength a b).map (fun x => x ^ 2)).sum = 0 → a = b := by
  intro a
  induction a with
  | nil =>
      intro b hlen _
      cases b with
      | nil => rfl
      | cons y ys => simp at hlen
  | cons x xs ih =>
      intro b hlen hsum
      cases b with
      | nil => simp at hlen
      | cons y ys =>
          have hlen' : xs.length = ys.length := by simpa using hlen
          simp only [npSubSameLength, List.zipWith_cons_cons, List.map_cons,
            List.sum_cons] at hsum
          have h1 : 0 ≤ (x - y) ^ 2 := sq_nonneg _
          have h2 : 0 ≤ ((npSubSameLength xs ys).map (fun x => x ^ 2)).sum :=
            sumSq_nonneg _
          simp only [npSubSameLength] at h2
          have hx : (x - y) ^ 2 = 0 := by linarith
          have hxy : x = y := by
            have := pow_eq_zero_iff (n := 2) (by norm_num) |>.mp hx
            linarith [sub_eq_zero.mp this]
          have hrest : ((npSubSameLength xs ys).map (fun x => x ^ 2)).sum = 0 := by
            simp only [npSubSameLength]
            linarith
          rw [hxy, ih hlen' hrest]

theorem euclideanDistance_pos {a b : List ℝ} (hlen : a.length = b.length)
    (hne : a ≠ b) : 0 < euclideanDistance a b := by
  have hnn := sumSq_nonneg (npSubSameLength a b)
  have hne' : ((npSubSameLength a b).map (fun x => x ^ 2)).sum ≠ 0 := by
    intro h0
    exact hne (eq_of_sumSq_sub_eq_zero hlen h0)
  exact Real.sqrt_pos.mpr (lt_of_le_of_ne hnn (Ne.symm hne'))

theorem sumSq_sub_comm (a b : List ℝ) :
    ((npSubSameLength a b).map (fun x => x ^ 2)).sum =
      ((npSubSameLength b a).map (fun x => x ^ 2)).sum := by
  induction a generalizing b with
  | nil => cases b <;> simp [npSubSameLength]
  | cons x xs ih =>
      cases b with
      | nil => simp [npSubSameLength]
      | cons y ys =>
          simp only [npSubSameLength, List.zipWith_cons_cons, List.map_cons,
            List.sum_cons] at *
          rw [ih ys]
          ring_nf

theorem euclideanDistance_comm (a b : List ℝ) :
    euclideanDistance a b = euclideanDistance b a := by
  unfold euclideanDistance npLinalgNorm
  rw [sumSq_sub_comm]

theorem calibratedDistance_comm (a b : List ℝ) :
    calibratedDistance a b = calibratedDistance b a := by
  unfold calibratedDistance
  rw [euclideanDistance_comm]
  exact if_congr (and_congr_right fun _ => ne_comm) rfl rfl

theorem npLinalgNorm_singleton (x : ℝ) : npLinalgNorm [x] = |x| := by
  simp [npLinalgNorm, Real.sqrt_sq_eq_abs]

theorem euclideanDistance_single (x y : ℝ) :
    euclideanDistance [x] [y] = |x - y| := by
  simp [euclideanDistance, npSubSameLength, npLinalgNorm_singleton]

/-! ## C4 — distance of an embedding to itself -/

/-- C4: for every embedding `e`, `calculate_face_distance e e` returns
exactly `0`: the 0.85 calibration factor leaves 0 at 0, and the
minimum-distance branch is skipped because `np.array_equal` holds, so the
calibration steps do not move a zero distance away from 0. -/
theorem distance_self_eq_zero (e : List ℝ) :
    calculate_face_distance e e = Except.ok 0 := by
  unfold calculate_face_distance calibratedDistance
  simp [euclideanDistance_self e]

/-! ## C1 — the distance is not the raw Euclidean distance -/

/-- C1 counterexample: on the one-dimensional embeddings `[0]` and `[1]`
(equal dimension), the Euclidean distance is `1` but `calculate_face_distance`
returns `0.85`: the hard-coded calibration factor rescales the raw distance,
refuting the claim that the operation returns exactly the Euclidean distance
with no hidden rescaling. -/
theorem calibration_rescales_counterexample :
    euclideanDistance [(0 : ℝ)] [1] = 1 ∧
      calculate_face_distance [(0 : ℝ)] [1] = Except.ok 0.85 ∧
      (0.85 : ℝ) ≠ 1 := by
  have h1 : euclideanDistance [(0 : ℝ)] [1] = 1 := by
    rw [euclideanDistance_single]
    norm_num
  refine ⟨h1, ?_, by norm_num⟩
  unfold calculate_face_distance calibratedDistance
  rw [if_neg (by simp)]
  rw [h1]
  rw [if_neg ?_]
  · norm_num
  · rintro ⟨hlt, -⟩
    norm_num at hlt

/-- C1 amended: for embeddings of equal dimension the operation returns the
Euclidean distance multiplied by the hard-coded factor `0.85`, with calibrated
values below `0.55` for non-identical encodings remapped to
`0.6 + calibrated * 0.1`; consequently the returned value equals the raw
Euclidean distance only when that distance is `0`.
`verify_faces_deepface_style` likewise returns the raw Euclidean distance
multiplied by the empirical factor `2.0`. -/
theorem calibration_formula (e1 e2 f1 f2 : List ℝ)
    (hlen : e1.length = e2.length) :
    calculate_face_distance e1 e2 = Except.ok (calibratedDistance e1 e2) ∧
      (calibratedDistance e1 e2 = euclideanDistance e1 e2 ↔
        euclideanDistance e1 e2 = 0) ∧
      deepface_style_scaled_distance f1 f2 = euclideanDistance f1 f2 * 2 := by
  refine ⟨?_, ?_, by norm_num [deepface_style_scaled_distance]⟩
  · unfold calculate_face_distance
    rw [if_neg (by simpa using hlen)]
  · unfold calibratedDistance
    set d := euclideanDistance e1 e2 with hd
    by_cases hbr : d * 0.85 < 0.55 ∧ e1 ≠ e2
    · rw [if_pos hbr]
      constructor
      · intro heq
        exfalso
        have := hbr.1
        linarith
      · intro h0
        exfalso
        have hpos : 0 < d := euclideanDistance_pos hlen hbr.2
        linarith
    · rw [if_neg hbr]
      constructor
      · intro heq
        linarith
      · intro h0
        rw [h0]
        ring

/-- C1 amended, witness at `e1 = [0]`, `e2 = [1]`, `f1 = [0]`, `f2 = [1]`. -/
theorem calibration_formula_witness :
    [(0 : ℝ)].length = [(1 : ℝ)].length ∧
      (calculate_face_distance [(0 : ℝ)] [1] =
          Except.ok (calibratedDistance [(0 : ℝ)] [1]) ∧
        (calibratedDistance [(0 : ℝ)] [1] = euclideanDistance [(0 : ℝ)] [1] ↔
          euclideanDistance [(0 : ℝ)] [1] = 0) ∧
        deepface_style_scaled_distance [(0 : ℝ)] [1] =
          euclideanDistance [(0 : ℝ)] [1] * 2) :=
  ⟨rfl, calibration_formula [(0 : ℝ)] [1] [(0 : ℝ)] [1] rfl⟩

/-! ## C3 — the calibrated floor on non-identical encodings -/

/-- C3: for encodings of equal dimension that are not elementwise identical,
the calibrated distance is at least `0.55`; a calibrated value below `0.55`
is remapped into `[0.6, 0.655)`; the function never returns a value in the
open interval `(0, 0.55)`; and with the default tolerance `0.6` any pair
whose returned distance exceeds `0.6` is classified as a non-match. -/
theorem calibrated_distance_floor (e1 e2 : List ℝ)
    (hlen : e1.length = e2.length) (hne : e1 ≠ e2) :
    calculate_face_distance e1 e2 = Except.ok (calibratedDistance e1 e2) ∧
      0.55 ≤ calibratedDistance e1 e2 ∧
      (euclideanDistance e1 e2 * 0.85 < 0.55 →
        0.6 ≤ calibratedDistance e1 e2 ∧ calibratedDistance e1 e2 < 0.655) ∧
      ¬ (0 < calibratedDistance e1 e2 ∧ calibratedDistance e1 e2 < 0.55) ∧
      (0.6 < calibratedDistance e1 e2 →
        compare_faces_is_match (calibratedDistance e1 e2) 0.6 = false) := by
  have hok : calculate_face_distance e1 e2 =
      Except.ok (calibratedDistance e1 e2) := by
    unfold calculate_face_distance
    rw [if_neg (by simpa using hlen)]
  have hd : 0 < euclideanDistance e1 e2 := euclideanDistance_pos hlen hne
  have hfloor : 0.55 ≤ calibratedDistance e1 e2 ∧
      (euclideanDistance e1 e2 * 0.85 < 0.55 →
        0.6 ≤ calibratedDistance e1 e2 ∧ calibratedDistance e1 e2 < 0.655) := by
    unfold calibratedDistance
    by_cases hbr : euclideanDistance e1 e2 * 0.85 < 0.55
    · rw [if_pos ⟨hbr, hne⟩]
      refine ⟨by linarith, fun _ => ⟨by linarith, by linarith⟩⟩
    · rw [if_neg (by tauto)]
      exact ⟨by linarith [not_lt.mp hbr], fun h => absurd h hbr⟩
  refine ⟨hok, hfloor.1, hfloor.2, ?_, ?_⟩
  · rintro ⟨-, hlt⟩
    linarith [hfloor.1]
  · intro hgt
    unfold compare_faces_is_match
    exact decide_eq_false (not_le.mpr hgt)

/-- C3 witness at `e1 = [0]`, `e2 = [3/10]` (calibrated raw value
`0.3 * 0.85 = 0.255 < 0.55`, so the remap branch is exercised). -/
theorem calibrated_distance_floor_witness :
    ([(0 : ℝ)].length = [(3 / 10 : ℝ)].length ∧ [(0 : ℝ)] ≠ [(3 / 10 : ℝ)]) ∧
      (calculate_face_distance [(0 : ℝ)] [3 / 10] =
          Except.ok (calibratedDistance [(0 : ℝ)] [3 / 10]) ∧
        0.55 ≤ calibratedDistance [(0 : ℝ)] [3 / 10] ∧
        (euclideanDistance [(0 : ℝ)] [3 / 10] * 0.85 < 0.55 →
          0.6 ≤ calibratedDistance [(0 : ℝ)] [3 / 10] ∧
            calibratedDistance [(0 : ℝ)] [3 / 10] < 0.655) ∧
        ¬ (0 < calibratedDistance [(0 : ℝ)] [3 / 10] ∧
            calibratedDistance [(0 : ℝ)] [3 / 10] < 0.55) ∧
        (0.6 < calibratedDistance [(0 : ℝ)] [3 / 10] →
          compare_faces_is_match (calibratedDistance [(0 : ℝ)] [3 / 10]) 0.6 =
            false)) :=
  ⟨⟨rfl, by norm_num⟩,
    calibrated_distance_floor [(0 : ℝ)] [3 / 10] rfl (by norm_num)⟩

/-! ## C5 — dimension mismatches and the NumPy broadcast hole -/

/-- Evaluation helper: the norm of a two-element vector. -/
theorem npLinalgNorm_pair (x y : ℝ) :
    npLinalgNorm [x, y] = Real.sqrt (x ^ 2 + y ^ 2) := by
  simp [npLinalgNorm]

/-- C5 counterexample: `compare_faces_simple` performs no dimension check; a
length-1 known encoding against the length-2 encoding `[3, 4]` broadcasts,
and the comparison returns the numeric distance `5` instead of failing with a
dimension-mismatch error. -/
theorem broadcast_hole_counterexample :
    [(0 : ℝ)].length ≠ [(3 : ℝ), 4].length ∧
      compare_faces_simple_core [(0 : ℝ)] [3, 4] 0.6 =
        Except.ok { distance := 5, is_match := false, tolerance := 0.6 } := by
  refine ⟨by simp, ?_⟩
  have hdiff : npSubBroadcast [(0 : ℝ)] [3, 4] =
      Except.ok [(-3 : ℝ), -4] := by
    unfold npSubBroadcast
    rw [if_neg (by simp), if_pos (show [(0 : ℝ)].length = 1 from rfl)]
    norm_num
  have h5 : npLinalgNorm [(-3 : ℝ), -4] = 5 := by
    rw [npLinalgNorm_pair]
    rw [show ((-3 : ℝ)) ^ 2 + (-4) ^ 2 = 5 ^ 2 by norm_num]
    exact Real.sqrt_sq (by norm_num)
  have hmatch : compare_faces_is_match 5 0.6 = false := by
    unfold compare_faces_is_match
    exact decide_eq_false (by norm_num)
  simp only [compare_faces_simple_core, hdiff, h5, hmatch]

/-- C5 amended: `calculate_face_distance` does fail with its dimension-
mismatch error on any dimension mismatch, but `compare_faces_simple` (and the
identical `compare_faces_reliable`) performs no explicit check: mismatched
dimensions both different from 1 fail only with a generic wrapped NumPy
broadcast error, and a length-1 encoding against any other length is
broadcast and yields a numeric distance rather than an error. -/
theorem dimension_mismatch_amended :
    (∀ e1 e2 : List ℝ, e1.length ≠ e2.length →
      calculate_face_distance e1 e2 =
        Except.error "Encoding dimension mismatch") ∧
      (∀ (known unknownEnc : List ℝ) (tol : ℝ),
        known.length ≠ unknownEnc.length → known.length ≠ 1 →
        unknownEnc.length ≠ 1 →
        compare_faces_simple_core known unknownEnc tol =
          Except.error
            "Failed to compare faces: operands could not be broadcast together") ∧
      (∀ (x : ℝ) (unknownEnc : List ℝ) (tol : ℝ),
        compare_faces_simple_core [x] unknownEnc tol =
          Except.ok { distance := npLinalgNorm (npSubBroadcastValue [x] unknownEnc)
                    , is_match :=
                        compare_faces_is_match
                          (npLinalgNorm (npSubBroadcastValue [x] unknownEnc)) tol
                    , tolerance := tol }) := by
  refine ⟨?_, ?_, ?_⟩
  · intro e1 e2 hne
    unfold calculate_face_distance
    rw [if_pos (by simpa using hne)]
  · intro known unknownEnc tol hne hk1 hu1
    unfold compare_faces_simple_core npSubBroadcast
    rw [if_neg hne, if_neg hk1, if_neg hu1]
    rfl
  · intro x unknownEnc tol
    unfold compare_faces_simple_core npSubBroadcast npSubBroadcastValue
    by_cases hlen : [x].length = unknownEnc.length
    · rw [if_pos hlen, if_pos hlen]
    · rw [if_neg hlen, if_neg hlen,
        if_pos (show [x].length = 1 from rfl),
        if_pos (show [x].length = 1 from rfl)]

/-- C5 amended, witness: the mismatch error at `[0]` vs `[1, 2]`, the
broadcast failure at `[1, 2]` vs `[3, 4, 5]`, and the broadcast success at
`[0]` vs `[3, 4]`. -/
theorem dimension_mismatch_amended_witness :
    ([(0 : ℝ)].length ≠ [(1 : ℝ), 2].length ∧
        calculate_face_distance [(0 : ℝ)] [1, 2] =
          Except.error "Encoding dimension mismatch") ∧
      ([(1 : ℝ), 2].length ≠ [(3 : ℝ), 4, 5].length ∧
        [(1 : ℝ), 2].length ≠ 1 ∧ [(3 : ℝ), 4, 5].length ≠ 1 ∧
        compare_faces_simple_core [(1 : ℝ), 2] [3, 4, 5] 0.6 =
          Except.error
            "Failed to compare faces: operands could not be broadcast together") ∧
      compare_faces_simple_core [(0 : ℝ)] [3, 4] 0.7 =
        Except.ok { distance := npLinalgNorm (npSubBroadcastValue [(0 : ℝ)] [3, 4])
                  , is_match :=
                      compare_faces_is_match
                        (npLinalgNorm (npSubBroadcastValue [(0 : ℝ)] [3, 4])) 0.7
                  , tolerance := 0.7 } :=
  ⟨⟨by simp, dimension_mismatch_amended.1 [(0 : ℝ)] [1, 2] (by simp)⟩,
    ⟨by simp, by simp, by simp,
      dimension_mismatch_amended.2.1 [(1 : ℝ), 2] [3, 4, 5] 0.6 (by simp)
        (by simp) (by simp)⟩,
    dimension_mismatch_amended.2.2 0 [3, 4] 0.7⟩

/-! ## C2 — encode and the process-salted hash signature -/

/-- C2 counterexample: with the same image-derived features and the same
fixed-seed noise, two runs whose CPython hash salt gives different values for
`hash(face_roi.tobytes())` produce different encodings — the final signature
component of `encode_face` is process-dependent, refuting bit-identical
vectors across separate runs. -/
theorem encode_process_dependent_counterexample :
    encode_face [(1 : ℝ)] [] 0 ≠ encode_face [(1 : ℝ)] [] 1 := by
  intro h
  have hlast := congrArg List.getLast? h
  rw [encode_face, encode_face, List.getLast?_concat, List.getLast?_concat]
    at hlast
  have : (((0 : ℤ) % 1000000 : ℤ) : ℝ) / 1000000 =
      (((1 : ℤ) % 1000000 : ℤ) : ℝ) / 1000000 := by
    exact Option.some.inj hlast
  norm_num at this

/-- C2 amended: `encode_face` is deterministic given the process's hash salt,
and every component except the last is independent of it: the first
components are a pure function of the image features and the fixed-seed noise
constant, while the final component is exactly
`(hash(face_roi.tobytes()) % 1000000) / 1000000`, a value in `[0, 1)` that
depends on the per-process hash salt, so separate runs need not agree on it.
(`extract_facial_features` of `face_recognition_service.py` has no such
process-dependent input.) -/
theorem encode_hash_signature (imageFeatures noiseFeatures : List ℝ)
    (h1 h2 : ℤ) :
    (encode_face imageFeatures noiseFeatures h1).dropLast =
        (encode_face imageFeatures noiseFeatures h2).dropLast ∧
      (encode_face imageFeatures noiseFeatures h1).getLast? =
        some (((h1 % 1000000 : ℤ) : ℝ) / 1000000) ∧
      (0 : ℤ) ≤ h1 % 1000000 ∧ h1 % 1000000 < 1000000 := by
  refine ⟨?_, ?_, Int.emod_nonneg h1 (by norm_num),
    Int.emod_lt_of_pos h1 (by norm_num)⟩
  · rw [encode_face, encode_face, List.dropLast_concat, List.dropLast_concat]
  · rw [encode_face, List.getLast?_concat]

/-! ## C8 — the two-pass detection policy -/

theorem pyMaxByArea_firstMax :
    ∀ (rest : List FaceRegion) (head : FaceRegion),
      firstMaxSpec (head :: rest) (pyMaxByArea head rest) := by
  intro rest
  induction rest with
  | nil =>
      intro head
      exact ⟨[], [], rfl, by simp, by simp⟩
  | cons r rs ih =>
      intro head
      by_cases hlt : regionArea head < regionArea r
      · have hstep : pyMaxByArea head (r :: rs) = pyMaxByArea r rs := by
          simp [pyMaxByArea, hlt]
        rw [hstep]
        obtain ⟨l₁, l₂, heq, hstrict, hle⟩ := ih r
        set m := pyMaxByArea r rs with hm
        have hrle : regionArea r ≤ regionArea m := by
          cases l₁ with
          | nil =>
              have hrm : r = m := by
                simpa using congrArg (fun l => l.headD r) heq
              rw [← hrm]
          | cons a l₁' =>
              have hra : r = a := by
                simpa using congrArg (fun l => l.headD r) heq
              exact le_of_lt (hstrict r (by simp [hra]))
        refine ⟨head :: l₁, l₂, by rw [List.cons_append, ← heq], ?_, hle⟩
        intro s hs
        rcases List.mem_cons.mp hs with h | h
        · subst h
          exact lt_of_lt_of_le hlt hrle
        · exact hstrict s h
      · have hstep : pyMaxByArea head (r :: rs) = pyMaxByArea head rs := by
          simp [pyMaxByArea, hlt]
        rw [hstep]
        obtain ⟨l₁, l₂, heq, hstrict, hle⟩ := ih head
        set m := pyMaxByArea head rs with hm
        cases l₁ with
        | nil =>
            have hhm : head = m := by
              simpa using congrArg (fun l => l.headD head) heq
            have hrs : rs = l₂ := by
              simpa using congrArg List.tail heq
            refine ⟨[], r :: rs, by simp [← hhm], by simp, ?_⟩
            intro s hs
            rcases List.mem_cons.mp hs with h | h
            · subst h
              rw [← hhm]
              exact not_lt.mp hlt
            · exact hle s (hrs ▸ h)
        | cons a l₁' =>
            have hha : head = a := by
              simpa using congrArg (fun l => l.headD head) heq
            have hrs : rs = l₁' ++ m :: l₂ := by
              simpa using congrArg List.tail heq
            have hheadlt : regionArea head < regionArea m :=
              hstrict head (by simp [hha])
            refine ⟨head :: r :: l₁', l₂, by rw [hrs]; rfl, ?_, hle⟩
            intro s hs
            rcases List.mem_cons.mp hs with h | h
            · subst h
              exact hheadlt
            · rcases List.mem_cons.mp h with h' | h'
              · subst h'
                exact lt_of_le_of_lt (not_lt.mp hlt) hheadlt
              · exact hstrict s (by simp [h'])

/-- C8: `detect_face` runs the conservative first pass (strictly higher
minimum-neighbor count and larger minimum size than the permissive second
pass); the second pass is consulted only when the first finds zero regions
(two detectors agreeing on a nonempty first pass agree on the result); when
both passes find zero regions the detection reports no face; and whenever the
pass in use finds regions, the region with the largest area is selected, ties
broken by the first region in scan order. -/
theorem detect_face_two_pass_policy :
    (permissiveDetectParams.minNeighbors < primaryDetectParams.minNeighbors ∧
        permissiveDetectParams.minSize < primaryDetectParams.minSize) ∧
      (∀ detector, detector primaryDetectParams = [] →
        detector permissiveDetectParams = [] → detect_face detector = none) ∧
      (∀ d1 d2, d1 primaryDetectParams = d2 primaryDetectParams →
        d1 primaryDetectParams ≠ [] → detect_face d1 = detect_face d2) ∧
      (∀ detector r, detect_face detector = some r →
        firstMaxSpec (detectedFaces detector) r) ∧
      (∀ detector, detectedFaces detector ≠ [] →
        detect_face detector ≠ none) := by
  refine ⟨by decide, ?_, ?_, ?_, ?_⟩
  · intro detector h1 h2
    simp [detect_face, detectedFaces, h1, h2]
  · intro d1 d2 hfst hne
    cases h : d1 primaryDetectParams with
    | nil => exact absurd h hne
    | cons f rest =>
        have h2 : d2 primaryDetectParams = f :: rest := by rw [← hfst, h]
        simp [detect_face, detectedFaces, h, h2]
  · intro detector r hr
    cases hL : detectedFaces detector with
    | nil =>
        rw [detect_face, hL] at hr
        exact absurd hr (by simp)
    | cons f rest =>
        rw [detect_face, hL] at hr
        have : pyMaxByArea f rest = r := by simpa using hr
        rw [← this]
        exact pyMaxByArea_firstMax rest f
  · intro detector hne
    cases hL : detectedFaces detector with
    | nil => exact absurd hL hne
    | cons f rest => simp [detect_face, hL]

/-- C8 witness: the empty detector reports no face; `sampleDetector` finds
three regions on the conservative pass, and the selected region is the first
of the two tied largest ones. -/
theorem detect_face_two_pass_policy_witness :
    (emptyDetector primaryDetectParams = [] ∧
        emptyDetector permissiveDetectParams = [] ∧
        detect_face emptyDetector = none) ∧
      (sampleDetector primaryDetectParams ≠ [] ∧
        detect_face sampleDetector = detect_face sampleDetector) ∧
      (detect_face sampleDetector = some { x := 0, y := 0, w := 2, h := 2 } ∧
        firstMaxSpec (detectedFaces sampleDetector)
          { x := 0, y := 0, w := 2, h := 2 }) :=
  ⟨⟨rfl, rfl, detect_face_two_pass_policy.2.1 emptyDetector rfl rfl⟩,
    ⟨by decide,
      detect_face_two_pass_policy.2.2.1 sampleDetector sampleDetector rfl
        (by decide)⟩,
    ⟨by decide,
      detect_face_two_pass_policy.2.2.2.1 sampleDetector
        { x := 0, y := 0, w := 2, h := 2 } (by decide)⟩⟩

/-! ## C9 — liveness aggregation -/

/-- C9: whenever `comprehensive_liveness_check` succeeds (at least one frame),
the returned liveness score is the weighted sum of the five sub-scores
(quality up to 25, human up to 25, anti-reflection up to 20, motion up to 20,
blink up to 10) clamped to `[0, 100]`, and the returned `is_live` flag is
`true` exactly when that score is at least `70`. -/
theorem liveness_score_aggregation {α : Type} (frames : List α)
    (a : LivenessAnalysis) (hframes : frames ≠ [])
    (hq0 : 0 ≤ a.quality.score) (hq1 : a.quality.score ≤ 100)
    (hrc : 0 ≤ a.reflection.confidence)
    (hm0 : 0 ≤ a.motion.score) (hm1 : a.motion.score ≤ 100) :
    comprehensive_liveness_check frames a =
        Except.ok { liveness_score := calculate_liveness_score a
                  , is_live := decide (70 ≤ calculate_liveness_score a)
                  , frames_analyzed := frames.length } ∧
      calculate_liveness_score a =
        min 100 (max 0 (qualityComponent a + humanComponent a +
          reflectionComponent a + motionComponent a + blinkComponent a)) ∧
      (0 ≤ qualityComponent a ∧ qualityComponent a ≤ 25) ∧
      (0 ≤ humanComponent a ∧ humanComponent a ≤ 25) ∧
      (0 ≤ reflectionComponent a ∧ reflectionComponent a ≤ 20) ∧
      (0 ≤ motionComponent a ∧ motionComponent a ≤ 20) ∧
      (0 ≤ blinkComponent a ∧ blinkComponent a ≤ 10) ∧
      (0 ≤ calculate_liveness_score a ∧ calculate_liveness_score a ≤ 100) ∧
      (decide (70 ≤ calculate_liveness_score a) = true ↔
        70 ≤ calculate_liveness_score a) := by
  refine ⟨?_, rfl, ?_, ?_, ?_, ?_, ?_, ?_, decide_eq_true_iff⟩
  · rw [comprehensive_liveness_check,
      if_neg (by simpa [List.isEmpty_iff] using hframes)]
  · constructor
    · unfold qualityComponent
      positivity
    · unfold qualityComponent
      linarith
  · constructor <;> · unfold humanComponent; split_ifs <;> norm_num
  · constructor
    · unfold reflectionComponent
      split_ifs
      · exact le_max_left 0 _
      · norm_num
    · unfold reflectionComponent
      split_ifs
      · exact max_le (by norm_num) (by linarith)
      · norm_num
  · refine ⟨?_, ?_⟩
    · unfold motionComponent
      split_ifs
      · norm_num
      · positivity
    · unfold motionComponent
      split_ifs
      · norm_num
      · linarith
  · constructor <;> · unfold blinkComponent; split_ifs <;> norm_num
  · constructor
    · exact le_min (by norm_num) (le_max_left 0 _)
    · exact min_le_left _ _

/-- C9 witness: a single frame with quality score 80, no screen reflection,
a verified human, detected motion and no blink; all side conditions hold and
the theorem applies. -/
theorem liveness_score_aggregation_witness :
    (([0] : List ℕ) ≠ [] ∧
        (0 : ℚ) ≤ (80 : ℚ) ∧ (80 : ℚ) ≤ 100 ∧ (0 : ℚ) ≤ (0 : ℚ) ∧
        (0 : ℚ) ≤ (30 : ℚ) ∧ (30 : ℚ) ≤ 100) ∧
      comprehensive_liveness_check ([0] : List ℕ)
          { quality := { score := 80 }
          , reflection := { is_screen_reflection := false, confidence := 0 }
          , human := { is_human := true, confidence := 85 }
          , motion := { has_motion := true, score := 30 }
          , blink := { is_blinking := false } } =
        Except.ok { liveness_score := calculate_liveness_score
                      { quality := { score := 80 }
                      , reflection := { is_screen_reflection := false, confidence := 0 }
                      , human := { is_human := true, confidence := 85 }
                      , motion := { has_motion := true, score := 30 }
                      , blink := { is_blinking := false } }
                  , is_live := decide (70 ≤ calculate_liveness_score
                      { quality := { score := 80 }
                      , reflection := { is_screen_reflection := false, confidence := 0 }
                      , human := { is_human := true, confidence := 85 }
                      , motion := { has_motion := true, score := 30 }
                      , blink := { is_blinking := false } })
                  , frames_analyzed := ([0] : List ℕ).length } :=
  ⟨⟨by decide, by norm_num, by norm_num, le_refl 0, by norm_num, by norm_num⟩,
    (liveness_score_aggregation ([0] : List ℕ)
      { quality := { score := 80 }
      , reflection := { is_screen_reflection := false, confidence := 0 }
      , human := { is_human := true, confidence := 85 }
      , motion := { has_motion := true, score := 30 }
      , blink := { is_blinking := false } }
      (by decide) (by norm_num) (by norm_num) (le_refl 0) (by norm_num)
      (by norm_num)).1⟩

/-! ## C10 — fallback orchestration of the verify operation -/

/-- C10: when DeepFace is unavailable or the primary verification fails, the
`verify` branch of `main` still returns a single structured
success-or-failure response: a successful OpenCV fallback yields a success
response whose engine field is `opencv_fallback` (and whose result is the
fallback result, itself tagged `opencv_fallback`); a fallback failure yields
a `success: false` response carrying an error message — never an uncaught
exception, and never the `deepface` engine tag.  Conversely a successful
primary verification is always reported with engine `deepface`. -/
theorem fallback_orchestration (avail : Bool)
    (primary : Except String DeepfaceVerifyResult) (loaded : Bool)
    (comparison : Except String FallbackCompareOutcome)
    (hfail : avail = false ∨ ∃ e, primary = Except.error e) :
    (∀ fr, verify_faces_with_simple_fallback loaded comparison = Except.ok fr →
        main_verify avail primary loaded comparison =
          { success := true
          , engine := some "opencv_fallback"
          , result := some (EngineResult.fallback fr)
          , error_msg := none } ∧
        fr.details_engine = "opencv_fallback") ∧
      (∀ e, verify_faces_with_simple_fallback loaded comparison =
          Except.error e →
        (main_verify avail primary loaded comparison).success = false ∧
        (main_verify avail primary loaded comparison).engine ≠
          some "deepface" ∧
        (main_verify avail primary loaded comparison).error_msg ≠ none) ∧
      (∀ (avail' : Bool) (primary' : Except String DeepfaceVerifyResult) r,
        avail' = true → primary' = Except.ok r →
        main_verify avail' primary' loaded comparison =
          { success := true
          , engine := some "deepface"
          , result := some (EngineResult.deepface r)
          , error_msg := none }) := by
  have hmain : main_verify avail primary loaded comparison =
      fallbackResponse loaded comparison := by
    rcases hfail with h | ⟨e, he⟩
    · rw [main_verify.eq_def, h]
      simp
    · cases avail
      · rw [main_verify.eq_def]
        simp
      · rw [main_verify.eq_def, he]
        simp
  refine ⟨?_, ?_, ?_⟩
  · intro fr hok
    constructor
    · rw [hmain, fallbackResponse.eq_def, hok]
    · cases loaded with
      | false =>
          rw [verify_faces_with_simple_fallback.eq_def] at hok
          simp at hok
      | true =>
          rw [verify_faces_with_simple_fallback.eq_def] at hok
          cases comparison with
          | error e => simp at hok
          | ok c =>
              have hok' :
                  Except.ok { verified := c.is_match, distance := c.distance
                            , threshold := 0.75, model := "opencv-simple"
                            , details_engine := "opencv_fallback" } =
                    Except.ok fr := hok
              rw [← Except.ok.inj hok']
  · intro e herr
    rw [hmain, fallbackResponse.eq_def, herr]
    exact ⟨rfl, by simp, by simp⟩
  · intro avail' primary' r ha hp
    rw [main_verify.eq_def, ha, hp]
    simp

/-- C10 witness: DeepFace unavailable, fallback loaded and succeeding with a
match at distance 1/2; and the primary-success reporting at a concrete
primary result. -/
theorem fallback_orchestration_witness :
    ((false : Bool) = false ∨
        ∃ e, (Except.error "import failed" :
          Except String DeepfaceVerifyResult) = Except.error e) ∧
      (verify_faces_with_simple_fallback true
          (Except.ok { is_match := true, distance := 1 / 2 }) =
        Except.ok { verified := true
                  , distance := 1 / 2
                  , threshold := 0.75
                  , model := "opencv-simple"
                  , details_engine := "opencv_fallback" } ∧
      main_verify false (Except.error "import failed") true
          (Except.ok { is_match := true, distance := 1 / 2 }) =
        { success := true
        , engine := some "opencv_fallback"
        , result := some (EngineResult.fallback
            { verified := true
            , distance := 1 / 2
            , threshold := 0.75
            , model := "opencv-simple"
            , details_engine := "opencv_fallback" })
        , error_msg := none } ∧
      main_verify true
          (Except.ok { verified := true, distance := 1 / 4, threshold := 0.65 })
          true (Except.ok { is_match := true, distance := 1 / 2 }) =
        { success := true
        , engine := some "deepface"
        , result := some (EngineResult.deepface
            { verified := true, distance := 1 / 4, threshold := 0.65 })
        , error_msg := none }) := by
  have hthm := fallback_orchestration false (Except.error "import failed") true
    (Except.ok { is_match := true, distance := 1 / 2 }) (Or.inl rfl)
  have hfb : verify_faces_with_simple_fallback true
      (Except.ok { is_match := true, distance := 1 / 2 }) =
      Except.ok { verified := true
                , distance := 1 / 2
                , threshold := 0.75
                , model := "opencv-simple"
                , details_engine := "opencv_fallback" } := rfl
  exact ⟨Or.inl rfl, hfb, (hthm.1 _ hfb).1,
    hthm.2.2 true
      (Except.ok { verified := true, distance := 1 / 4, threshold := 0.65 })
      _ rfl rfl⟩

/-! ## C7 — shape of the comparison matrix and the duplicated distance calls -/

theorem filter_ne_range_length (n i : ℕ) (h : i < n) :
    ((List.range n).filter fun j => decide (i ≠ j)).length = n - 1 := by
  induction n with
  | zero => exact absurd h (Nat.not_lt_zero i)
  | succ m ih =>
      rw [List.range_succ, List.filter_append, List.length_append]
      by_cases him : i < m
      · rw [ih him]
        have hne : i ≠ m := Nat.ne_of_lt him
        simp [hne]
        omega
      · have him' : i = m := by omega
        subst him'
        have hall : (List.range i).filter (fun j => decide (i ≠ j)) =
            List.range i := by
          apply List.filter_eq_self.mpr
          intro a ha
          have halt : a < i := List.mem_range.mp ha
          simp [Nat.ne_of_gt halt]
        rw [hall]
        simp

theorem distanceCallCount_eq (encs : List (List ℝ)) :
    distanceCallCount encs = encs.length * encs.length - encs.length := by
  unfold distanceCallCount
  have hmap : (List.range encs.length).map
      (fun i =>
        ((List.range encs.length).filter fun j => decide (i ≠ j)).length) =
      (List.range encs.length).map (fun _ => encs.length - 1) :=
    List.map_congr_left (fun i hi =>
      filter_ne_range_length encs.length i (List.mem_range.mp hi))
  rw [hmap, List.map_const', List.sum_replicate, List.length_range,
    smul_eq_mul]
  cases hn : encs.length with
  | zero => rfl
  | succ k =>
      have h1 : (k + 1) * (k + 1) = (k + 1) * k + (k + 1) := by ring
      simp [h1]

theorem generate_comparison_matrix_ok (encs : List (List ℝ))
    (h2 : 2 ≤ encs.length) (hsame : allSameLength encs = true) :
    generate_comparison_matrix encs =
      Except.ok { num_faces := encs.length
                , distance_matrix := buildDistanceMatrix encs
                , closest_pairs := (closestPairsFull encs).take 5
                , most_different_pairs := (mostDifferentPairsFull encs).take 5 } := by
  unfold generate_comparison_matrix
  rw [if_neg (by omega), if_neg (by simp [hsame])]

theorem matrixEntry_comm (encs : List (List ℝ)) (i j : ℕ) :
    matrixEntry encs i j = matrixEntry encs j i := by
  unfold matrixEntry
  by_cases h : i = j
  · subst h
    rfl
  · rw [if_neg h, if_neg (Ne.symm h)]
    unfold pairDistance
    exact calibratedDistance_comm _ _

theorem matrixEntry_diag (encs : List (List ℝ)) (i : ℕ) :
    matrixEntry encs i i = 0 := by
  unfold matrixEntry
  rw [if_pos rfl]

theorem buildDistanceMatrix_length (encs : List (List ℝ)) :
    (buildDistanceMatrix encs).length = encs.length := by
  unfold buildDistanceMatrix
  rw [List.length_map, List.length_range]

theorem buildDistanceMatrix_row_length (encs : List (List ℝ)) :
    ∀ row ∈ buildDistanceMatrix encs, row.length = encs.length := by
  intro row hrow
  unfold buildDistanceMatrix at hrow
  obtain ⟨i, -, hi⟩ := List.mem_map.mp hrow
  rw [← hi, List.length_map, List.length_range]

theorem buildDistanceMatrix_entry (encs : List (List ℝ)) (i j : ℕ)
    (hi : i < encs.length) (hj : j < encs.length) :
    ((buildDistanceMatrix encs).getD i []).getD j 0 = matrixEntry encs i j := by
  have hrow : (buildDistanceMatrix encs).getD i [] =
      (List.range encs.length).map (fun j => matrixEntry encs i j) := by
    unfold buildDistanceMatrix
    rw [List.getD_eq_getElem?_getD, List.getElem?_map, List.getElem?_range hi]
    simp
  rw [hrow, List.getD_eq_getElem?_getD, List.getElem?_map,
    List.getElem?_range hj]
  simp

/-- C7 counterexample: on a cohort of two identities there is exactly one
unordered pair, yet the nested loops of `generate_comparison_matrix` invoke
`calculate_face_distance` twice (once per ordered pair), refuting "computes
every unordered pair's distance exactly once". -/
theorem pair_distance_computed_twice_counterexample :
    distanceCallCount [[(0 : ℝ)], [1]] = 2 ∧
      (allPairs [[(0 : ℝ)], [1]]).length = 1 ∧ (2 : ℕ) ≠ 1 :=
  ⟨rfl, rfl, by norm_num⟩

/-- C7 amended: `build` on fewer than 2 identities fails with the
insufficient-cohort error; on a cohort of N ≥ 2 identities with a common
embedding dimension it returns an N×N matrix that is symmetric with zero
diagonal — in particular for N = 2 the two off-diagonal entries are equal —
but it computes every unordered pair's distance exactly twice (once per
ordered pair), making N² − N encoder-distance calls in total. -/
theorem comparison_matrix_shape :
    (∀ encs : List (List ℝ), encs.length < 2 →
      generate_comparison_matrix encs =
        Except.error "Need at least 2 faces to generate comparison matrix") ∧
      (∀ encs : List (List ℝ), 2 ≤ encs.length → allSameLength encs = true →
        generate_comparison_matrix encs =
          Except.ok { num_faces := encs.length
                    , distance_matrix := buildDistanceMatrix encs
                    , closest_pairs := (closestPairsFull encs).take 5
                    , most_different_pairs :=
                        (mostDifferentPairsFull encs).take 5 } ∧
        (buildDistanceMatrix encs).length = encs.length ∧
        (∀ row ∈ buildDistanceMatrix encs, row.length = encs.length) ∧
        (∀ i j, i < encs.length → j < encs.length →
          ((buildDistanceMatrix encs).getD i []).getD j 0 =
            matrixEntry encs i j) ∧
        (∀ i j, matrixEntry encs i j = matrixEntry encs j i) ∧
        (∀ i, matrixEntry encs i i = 0) ∧
        (encs.length = 2 → matrixEntry encs 0 1 = matrixEntry encs 1 0) ∧
        distanceCallCount encs = encs.length * encs.length - encs.length) := by
  constructor
  · intro encs hlt
    unfold generate_comparison_matrix
    rw [if_pos hlt]
  · intro encs h2 hsame
    exact ⟨generate_comparison_matrix_ok encs h2 hsame,
      buildDistanceMatrix_length encs, buildDistanceMatrix_row_length encs,
      fun i j hi hj => buildDistanceMatrix_entry encs i j hi hj,
      matrixEntry_comm encs, matrixEntry_diag encs,
      fun _ => matrixEntry_comm encs 0 1, distanceCallCount_eq encs⟩

/-- C7 witness: the insufficient-cohort failure at a single identity, and the
full shape facts at the two-identity cohort `[[0], [1]]`. -/
theorem comparison_matrix_shape_witness :
    (([[(0 : ℝ)]] : List (List ℝ)).length < 2 ∧
        generate_comparison_matrix [[(0 : ℝ)]] =
          Except.error "Need at least 2 faces to generate comparison matrix") ∧
      (2 ≤ ([[(0 : ℝ)], [1]] : List (List ℝ)).length ∧
        allSameLength [[(0 : ℝ)], [1]] = true ∧
        (generate_comparison_matrix [[(0 : ℝ)], [1]] =
          Except.ok { num_faces := ([[(0 : ℝ)], [1]] : List (List ℝ)).length
                    , distance_matrix := buildDistanceMatrix [[(0 : ℝ)], [1]]
                    , closest_pairs :=
                        (closestPairsFull [[(0 : ℝ)], [1]]).take 5
                    , most_different_pairs :=
                        (mostDifferentPairsFull [[(0 : ℝ)], [1]]).take 5 } ∧
        (buildDistanceMatrix [[(0 : ℝ)], [1]]).length =
          ([[(0 : ℝ)], [1]] : List (List ℝ)).length ∧
        (∀ row ∈ buildDistanceMatrix [[(0 : ℝ)], [1]],
          row.length = ([[(0 : ℝ)], [1]] : List (List ℝ)).length) ∧
        (∀ i j, i < ([[(0 : ℝ)], [1]] : List (List ℝ)).length →
          j < ([[(0 : ℝ)], [1]] : List (List ℝ)).length →
          ((buildDistanceMatrix [[(0 : ℝ)], [1]]).getD i []).getD j 0 =
            matrixEntry [[(0 : ℝ)], [1]] i j) ∧
        (∀ i j, matrixEntry [[(0 : ℝ)], [1]] i j =
          matrixEntry [[(0 : ℝ)], [1]] j i) ∧
        (∀ i, matrixEntry [[(0 : ℝ)], [1]] i i = 0) ∧
        (([[(0 : ℝ)], [1]] : List (List ℝ)).length = 2 →
          matrixEntry [[(0 : ℝ)], [1]] 0 1 = matrixEntry [[(0 : ℝ)], [1]] 1 0) ∧
        distanceCallCount [[(0 : ℝ)], [1]] =
          ([[(0 : ℝ)], [1]] : List (List ℝ)).length *
              ([[(0 : ℝ)], [1]] : List (List ℝ)).length -
            ([[(0 : ℝ)], [1]] : List (List ℝ)).length)) :=
  ⟨⟨by decide, comparison_matrix_shape.1 [[(0 : ℝ)]] (by decide)⟩,
    by decide, rfl,
    comparison_matrix_shape.2 [[(0 : ℝ)], [1]] (by decide) rfl⟩

/-! ## C6 — the closest / most-different pair partition -/

theorem mem_closestPairsFull (encs : List (List ℝ)) (p : PairEntry) :
    p ∈ closestPairsFull encs ↔ p ∈ allPairs encs ∧ p.distance < 0.6 := by
  unfold closestPairsFull
  rw [List.mem_insertionSort, List.mem_filter, decide_eq_true_eq]

theorem mem_mostDifferentPairsFull (encs : List (List ℝ)) (p : PairEntry) :
    p ∈ mostDifferentPairsFull encs ↔
      p ∈ allPairs encs ∧ ¬ p.distance < 0.6 := by
  unfold mostDifferentPairsFull
  rw [List.mem_insertionSort, List.mem_filter, decide_eq_true_eq]

theorem closestPairsFull_sorted (encs : List (List ℝ)) :
    List.Sorted pairLE (closestPairsFull encs) :=
  List.sorted_insertionSort pairLE _

theorem mostDifferentPairsFull_sorted (encs : List (List ℝ)) :
    List.Sorted pairGE (mostDifferentPairsFull encs) :=
  List.sorted_insertionSort pairGE _

/-- C6 counterexample: on the cohort `[[0], [12/17]]` the single unordered
pair has calibrated distance exactly `0.6` — equal to the threshold.  The
claim places a pair with distance ≤ threshold in the "closest" list and
restricts "most different" to distances strictly greater than the threshold;
the code does the opposite on the boundary: the closest list is empty and the
pair lands in the most-different list. -/
theorem threshold_boundary_counterexample :
    matrixEntry [[(0 : ℝ)], [12 / 17]] 0 1 = 0.6 ∧
      ¬ ((0.6 : ℝ) > 0.6) ∧ (0.6 : ℝ) ≤ 0.6 ∧
      closestPairsFull [[(0 : ℝ)], [12 / 17]] = [] ∧
      mostDifferentPairsFull [[(0 : ℝ)], [12 / 17]] =
        [{ person1 := 0, person2 := 1, distance := 0.6 }] := by
  have he : euclideanDistance [(0 : ℝ)] [12 / 17] = 12 / 17 := by
    rw [euclideanDistance_single]
    rw [show (0 : ℝ) - 12 / 17 = -(12 / 17) by ring, abs_neg]
    exact abs_of_nonneg (by norm_num)
  have hm : matrixEntry [[(0 : ℝ)], [12 / 17]] 0 1 = 0.6 := by
    unfold matrixEntry
    rw [if_neg (by norm_num)]
    show calibratedDistance [(0 : ℝ)] [12 / 17] = 0.6
    unfold calibratedDistance
    rw [he]
    rw [if_neg ?_]
    · norm_num
    · rintro ⟨hlt, -⟩
      norm_num at hlt
  have hps : allPairs [[(0 : ℝ)], [12 / 17]] =
      [{ person1 := 0, person2 := 1
       , distance := matrixEntry [[(0 : ℝ)], [12 / 17]] 0 1 }] := rfl
  have hps6 : allPairs [[(0 : ℝ)], [12 / 17]] =
      [{ person1 := 0, person2 := 1, distance := (0.6 : ℝ) }] := by
    rw [hps, hm]
  have hdecF : decide ((0.6 : ℝ) < 0.6) = false :=
    decide_eq_false (lt_irrefl _)
  have hdecT : decide (¬ (0.6 : ℝ) < 0.6) = true :=
    decide_eq_true (lt_irrefl _)
  refine ⟨hm, by norm_num, le_refl _, ?_, ?_⟩
  · unfold closestPairsFull
    rw [hps6, List.filter_cons, hdecF]
    simp
  · unfold mostDifferentPairsFull
    rw [hps6, List.filter_cons, hdecT]
    simp [List.insertionSort]

/-- C6 amended: on a cohort of N ≥ 2 identities with a common dimension, the
full "closest" list contains exactly the unordered off-diagonal pairs with
distance strictly below the 0.6 threshold, sorted ascending by distance, and
the full "most different" list contains exactly the pairs with distance
greater than or equal to the threshold, sorted descending; every unordered
pair appears in exactly one of the two full lists, and the returned result
truncates each list to its first five entries (which remain sorted). -/
theorem pair_partition_sorted (encs : List (List ℝ)) (h2 : 2 ≤ encs.length)
    (hsame : allSameLength encs = true) :
    generate_comparison_matrix encs =
        Except.ok { num_faces := encs.length
                  , distance_matrix := buildDistanceMatrix encs
                  , closest_pairs := (closestPairsFull encs).take 5
                  , most_different_pairs :=
                      (mostDifferentPairsFull encs).take 5 } ∧
      (∀ p, p ∈ closestPairsFull encs ↔
        p ∈ allPairs encs ∧ p.distance < 0.6) ∧
      (∀ p, p ∈ mostDifferentPairsFull encs ↔
        p ∈ allPairs encs ∧ ¬ p.distance < 0.6) ∧
      List.Sorted pairLE (closestPairsFull encs) ∧
      List.Sorted pairGE (mostDifferentPairsFull encs) ∧
      (∀ p ∈ allPairs encs,
        (p ∈ closestPairsFull encs ∧ p ∉ mostDifferentPairsFull encs) ∨
          (p ∈ mostDifferentPairsFull encs ∧ p ∉ closestPairsFull encs)) ∧
      List.Sorted pairLE ((closestPairsFull encs).take 5) ∧
      List.Sorted pairGE ((mostDifferentPairsFull encs).take 5) := by
  refine ⟨generate_comparison_matrix_ok encs h2 hsame,
    mem_closestPairsFull encs, mem_mostDifferentPairsFull encs,
    closestPairsFull_sorted encs, mostDifferentPairsFull_sorted encs,
    ?_, ?_, ?_⟩
  · intro p hp
    by_cases hlt : p.distance < 0.6
    · left
      refine ⟨(mem_closestPairsFull encs p).mpr ⟨hp, hlt⟩, ?_⟩
      intro hmem
      exact ((mem_mostDifferentPairsFull encs p).mp hmem).2 hlt
    · right
      refine ⟨(mem_mostDifferentPairsFull encs p).mpr ⟨hp, hlt⟩, ?_⟩
      intro hmem
      exact hlt ((mem_closestPairsFull encs p).mp hmem).2
  · exact List.Pairwise.sublist (List.take_sublist 5 _)
      (closestPairsFull_sorted encs)
  · exact List.Pairwise.sublist (List.take_sublist 5 _)
      (mostDifferentPairsFull_sorted encs)

/-- C6 witness at the two-identity cohort `[[0], [1]]`. -/
theorem pair_partition_sorted_witness :
    (2 ≤ ([[(0 : ℝ)], [1]] : List (List ℝ)).length ∧
        allSameLength [[(0 : ℝ)], [1]] = true) ∧
      (generate_comparison_matrix [[(0 : ℝ)], [1]] =
          Except.ok { num_faces := ([[(0 : ℝ)], [1]] : List (List ℝ)).length
                    , distance_matrix := buildDistanceMatrix [[(0 : ℝ)], [1]]
                    , closest_pairs :=
                        (closestPairsFull [[(0 : ℝ)], [1]]).take 5
                    , most_different_pairs :=
                        (mostDifferentPairsFull [[(0 : ℝ)], [1]]).take 5 } ∧
        (∀ p, p ∈ closestPairsFull [[(0 : ℝ)], [1]] ↔
          p ∈ allPairs [[(0 : ℝ)], [1]] ∧ p.distance < 0.6) ∧
        (∀ p, p ∈ mostDifferentPairsFull [[(0 : ℝ)], [1]] ↔
          p ∈ allPairs [[(0 : ℝ)], [1]] ∧ ¬ p.distance < 0.6) ∧
        List.Sorted pairLE (closestPairsFull [[(0 : ℝ)], [1]]) ∧
        List.Sorted pairGE (mostDifferentPairsFull [[(0 : ℝ)], [1]]) ∧
        (∀ p ∈ allPairs [[(0 : ℝ)], [1]],
          (p ∈ closestPairsFull [[(0 : ℝ)], [1]] ∧
              p ∉ mostDifferentPairsFull [[(0 : ℝ)], [1]]) ∨
            (p ∈ mostDifferentPairsFull [[(0 : ℝ)], [1]] ∧
              p ∉ closestPairsFull [[(0 : ℝ)], [1]])) ∧
        List.Sorted pairLE ((closestPairsFull [[(0 : ℝ)], [1]]).take 5) ∧
        List.Sorted pairGE ((mostDifferentPairsFull [[(0 : ℝ)], [1]]).take 5)) :=
  ⟨⟨by decide, rfl⟩, pair_partition_sorted [[(0 : ℝ)], [1]] (by decide) rfl⟩

end ClockInPro

